import Mathlib

/-!
Verification of the JavaFoil macro corpus of the repository
"Aerodynamic-Coefficients-Prediction-Using-Artificial-Neural-Network".

Every source file under `macros_temp/` is a linear JavaFoil batch script:
a comment line followed by six interface calls with literal arguments,
ending in `JavaFoil.Exit()`.  We embed each script as a list of calls,
where an argument is one of the four literal forms that occur in the
sources: an integer literal, a decimal literal, a boolean literal, or a
string literal.

Decimal literals in the sources have at most two fractional digits, so a
decimal literal is embedded exactly as its value in hundredths
(an integer): `0.35` becomes `dec 35`, `6.0` becomes `dec 600`,
`-10.0` becomes `dec (-1000)`, `1.0` becomes `dec 100`.  This
representation is exact: no rounding is involved anywhere.
-/

/-- A literal argument of a JavaFoil interface call.  `dec m` is the
decimal literal with exact value `m / 100` (all decimal literals in the
repository have at most two fractional digits). -/
inductive Arg where
  | int (n : Int)
  | dec (m : Int)
  | bool (b : Bool)
  | str (s : String)
deriving DecidableEq

/-- One interface call of a macro script: the dotted method name and its
literal argument list. -/
structure Call where
  target : String
  args : List Arg
deriving DecidableEq

/-- A macro script is the sequence of interface calls of one file. -/
abbrev Script := List Call

/-- `true` exactly for the numeric literal forms (integer or decimal). -/
def Arg.isNumeric : Arg → Bool
  | Arg.int _ => true
  | Arg.dec _ => true
  | Arg.bool _ => false
  | Arg.str _ => false

/-- src/macros_temp/macro_NACA0635_Re300000_M0p3.js -/
def script_NACA0635_Re300000_M0p3 : Script :=
  [ Call.mk "Options.Country" [Arg.int 1],
    Call.mk "Geometry.CreateAirfoil"
      [Arg.int 0, Arg.int 101, Arg.dec 35, Arg.dec 0, Arg.dec 0, Arg.dec 600,
       Arg.dec 0, Arg.dec 0, Arg.dec 0, Arg.dec 0, Arg.int 1],
    Call.mk "Options.MachNumber" [Arg.dec 30],
    Call.mk "Polar.Analyze"
      [Arg.int 300000, Arg.int 300000, Arg.int 300000, Arg.dec (-1000),
       Arg.dec 1000, Arg.dec 100, Arg.dec 100, Arg.dec 100, Arg.int 0,
       Arg.bool false],
    Call.mk "Polar.Save"
      [Arg.str "/home/nevilcp/ML_Aero/results/NACA0635_Re300000_M0p3_polar.xml"],
    Call.mk "JavaFoil.Exit" [] ]

/-- src/macros_temp/macro_NACA1120_Re500000_M0p2.js, first document -/
def script_NACA1120_Re500000_M0p2 : Script :=
  [ Call.mk "Options.Country" [Arg.int 1],
    Call.mk "Geometry.CreateAirfoil"
      [Arg.int 0, Arg.int 101, Arg.dec 20, Arg.dec 0, Arg.dec 1, Arg.dec 100,
       Arg.dec 0, Arg.dec 0, Arg.dec 0, Arg.dec 0, Arg.int 1],
    Call.mk "Options.MachNumber" [Arg.dec 20],
    Call.mk "Polar.Analyze"
      [Arg.int 500000, Arg.int 500000, Arg.int 500000, Arg.dec (-1000),
       Arg.dec 1000, Arg.dec 100, Arg.dec 100, Arg.dec 100, Arg.int 0,
       Arg.bool false],
    Call.mk "Polar.Save"
      [Arg.str "/home/nevilcp/ML_Aero/results/NACA1120_Re500000_M0p2_polar.xml"],
    Call.mk "JavaFoil.Exit" [] ]

/-- src/macros_temp/macro_NACA1120_Re500000_M0p2.js, second document
(the NACA2415 case stored after the document separator in that file) -/
def script_NACA2415_Re500000_M0p1 : Script :=
  [ Call.mk "Options.Country" [Arg.int 1],
    Call.mk "Geometry.CreateAirfoil"
      [Arg.int 0, Arg.int 101, Arg.dec 15, Arg.dec 0, Arg.dec 2, Arg.dec 400,
       Arg.dec 0, Arg.dec 0, Arg.dec 0, Arg.dec 0, Arg.int 1],
    Call.mk "Options.MachNumber" [Arg.dec 10],
    Call.mk "Polar.Analyze"
      [Arg.int 500000, Arg.int 500000, Arg.int 500000, Arg.dec (-1000),
       Arg.dec 1000, Arg.dec 100, Arg.dec 100, Arg.dec 100, Arg.int 0,
       Arg.bool false],
    Call.mk "Polar.Save"
      [Arg.str "/home/nevilcp/ML_Aero/results/NACA2415_Re500000_M0p1_polar.xml"],
    Call.mk "JavaFoil.Exit" [] ]

/-- src/macros_temp/macro_NACA2505_Re500000_M0p2.js -/
def script_NACA2505_Re500000_M0p2 : Script :=
  [ Call.mk "Options.Country" [Arg.int 1],
    Call.mk "Geometry.CreateAirfoil"
      [Arg.int 0, Arg.int 101, Arg.dec 5, Arg.dec 0, Arg.dec 2, Arg.dec 500,
       Arg.dec 0, Arg.dec 0, Arg.dec 0, Arg.dec 0, Arg.int 1],
    Call.mk "Options.MachNumber" [Arg.dec 20],
    Call.mk "Polar.Analyze"
      [Arg.int 500000, Arg.int 500000, Arg.int 500000, Arg.dec (-1000),
       Arg.dec 1000, Arg.dec 100, Arg.dec 100, Arg.dec 100, Arg.int 0,
       Arg.bool false],
    Call.mk "Polar.Save"
      [Arg.str "/home/nevilcp/ML_Aero/results/NACA2505_Re500000_M0p2_polar.xml"],
    Call.mk "JavaFoil.Exit" [] ]

/-- src/macros_temp/macro_NACA2730_Re400000_M0p2.js -/
def script_NACA2730_Re400000_M0p2 : Script :=
  [ Call.mk "Options.Country" [Arg.int 1],
    Call.mk "Geometry.CreateAirfoil"
      [Arg.int 0, Arg.int 101, Arg.dec 30, Arg.dec 0, Arg.dec 2, Arg.dec 700,
       Arg.dec 0, Arg.dec 0, Arg.dec 0, Arg.dec 0, Arg.int 1],
    Call.mk "Options.MachNumber" [Arg.dec 20],
    Call.mk "Polar.Analyze"
      [Arg.int 400000, Arg.int 400000, Arg.int 400000, Arg.dec (-1000),
       Arg.dec 1000, Arg.dec 100, Arg.dec 100, Arg.dec 100, Arg.int 0,
       Arg.bool false],
    Call.mk "Polar.Save"
      [Arg.str "/home/nevilcp/ML_Aero/results/NACA2730_Re400000_M0p2_polar.xml"],
    Call.mk "JavaFoil.Exit" [] ]

/-- src/macros_temp/macro_NACA4305_Re500000_M0p3.js -/
def script_NACA4305_Re500000_M0p3 : Script :=
  [ Call.mk "Options.Country" [Arg.int 1],
    Call.mk "Geometry.CreateAirfoil"
      [Arg.int 0, Arg.int 101, Arg.dec 5, Arg.dec 0, Arg.dec 4, Arg.dec 300,
       Arg.dec 0, Arg.dec 0, Arg.dec 0, Arg.dec 0, Arg.int 1],
    Call.mk "Options.MachNumber" [Arg.dec 30],
    Call.mk "Polar.Analyze"
      [Arg.int 500000, Arg.int 500000, Arg.int 500000, Arg.dec (-1000),
       Arg.dec 1000, Arg.dec 100, Arg.dec 100, Arg.dec 100, Arg.int 0,
       Arg.bool false],
    Call.mk "Polar.Save"
      [Arg.str "/home/nevilcp/ML_Aero/results/NACA4305_Re500000_M0p3_polar.xml"],
    Call.mk "JavaFoil.Exit" [] ]

/-- src/macros_temp/macro_NACA8315_Re300000_M0p3.js -/
def script_NACA8315_Re300000_M0p3 : Script :=
  [ Call.mk "Options.Country" [Arg.int 1],
    Call.mk "Geometry.CreateAirfoil"
      [Arg.int 0, Arg.int 101, Arg.dec 15, Arg.dec 0, Arg.dec 8, Arg.dec 300,
       Arg.dec 0, Arg.dec 0, Arg.dec 0, Arg.dec 0, Arg.int 1],
    Call.mk "Options.MachNumber" [Arg.dec 30],
    Call.mk "Polar.Analyze"
      [Arg.int 300000, Arg.int 300000, Arg.int 300000, Arg.dec (-1000),
       Arg.dec 1000, Arg.dec 100, Arg.dec 100, Arg.dec 100, Arg.int 0,
       Arg.bool false],
    Call.mk "Polar.Save"
      [Arg.str "/home/nevilcp/ML_Aero/results/NACA8315_Re300000_M0p3_polar.xml"],
    Call.mk "JavaFoil.Exit" [] ]

/-- src/macros_temp/macro_NACA8335_Re300000_M0p1.js -/
def script_NACA8335_Re300000_M0p1 : Script :=
  [ Call.mk "Options.Country" [Arg.int 1],
    Call.mk "Geometry.CreateAirfoil"
      [Arg.int 0, Arg.int 101, Arg.dec 35, Arg.dec 0, Arg.dec 8, Arg.dec 300,
       Arg.dec 0, Arg.dec 0, Arg.dec 0, Arg.dec 0, Arg.int 1],
    Call.mk "Options.MachNumber" [Arg.dec 10],
    Call.mk "Polar.Analyze"
      [Arg.int 300000, Arg.int 300000, Arg.int 300000, Arg.dec (-1000),
       Arg.dec 1000, Arg.dec 100, Arg.dec 100, Arg.dec 100, Arg.int 0,
       Arg.bool false],
    Call.mk "Polar.Save"
      [Arg.str "/home/nevilcp/ML_Aero/results/NACA8335_Re300000_M0p1_polar.xml"],
    Call.mk "JavaFoil.Exit" [] ]

/-- src/macros_temp/macro_NACA9235_Re200000_M0p3.js -/
def script_NACA9235_Re200000_M0p3 : Script :=
  [ Call.mk "Options.Country" [Arg.int 1],
    Call.mk "Geometry.CreateAirfoil"
      [Arg.int 0, Arg.int 101, Arg.dec 35, Arg.dec 0, Arg.dec 9, Arg.dec 200,
       Arg.dec 0, Arg.dec 0, Arg.dec 0, Arg.dec 0, Arg.int 1],
    Call.mk "Options.MachNumber" [Arg.dec 30],
    Call.mk "Polar.Analyze"
      [Arg.int 200000, Arg.int 200000, Arg.int 200000, Arg.dec (-1000),
       Arg.dec 1000, Arg.dec 100, Arg.dec 100, Arg.dec 100, Arg.int 0,
       Arg.bool false],
    Call.mk "Polar.Save"
      [Arg.str "/home/nevilcp/ML_Aero/results/NACA9235_Re200000_M0p3_polar.xml"],
    Call.mk "JavaFoil.Exit" [] ]

/-- src/unnamed/part_000 (the NACA8225 case) -/
def script_NACA8225_Re100000_M0p1 : Script :=
  [ Call.mk "Options.Country" [Arg.int 1],
    Call.mk "Geometry.CreateAirfoil"
      [Arg.int 0, Arg.int 101, Arg.dec 25, Arg.dec 0, Arg.dec 8, Arg.dec 200,
       Arg.dec 0, Arg.dec 0, Arg.dec 0, Arg.dec 0, Arg.int 1],
    Call.mk "Options.MachNumber" [Arg.dec 10],
    Call.mk "Polar.Analyze"
      [Arg.int 100000, Arg.int 100000, Arg.int 100000, Arg.dec (-1000),
       Arg.dec 1000, Arg.dec 100, Arg.dec 100, Arg.dec 100, Arg.int 0,
       Arg.bool false],
    Call.mk "Polar.Save"
      [Arg.str "/home/nevilcp/ML_Aero/results/NACA8225_Re100000_M0p1_polar.xml"],
    Call.mk "JavaFoil.Exit" [] ]

/-- src/unnamed/part_001 (the NACA6525 case) -/
def script_NACA6525_Re200000_M0p2 : Script :=
  [ Call.mk "Options.Country" [Arg.int 1],
    Call.mk "Geometry.CreateAirfoil"
      [Arg.int 0, Arg.int 101, Arg.dec 25, Arg.dec 0, Arg.dec 6, Arg.dec 500,
       Arg.dec 0, Arg.dec 0, Arg.dec 0, Arg.dec 0, Arg.int 1],
    Call.mk "Options.MachNumber" [Arg.dec 20],
    Call.mk "Polar.Analyze"
      [Arg.int 200000, Arg.int 200000, Arg.int 200000, Arg.dec (-1000),
       Arg.dec 1000, Arg.dec 100, Arg.dec 100, Arg.dec 100, Arg.int 0,
       Arg.bool false],
    Call.mk "Polar.Save"
      [Arg.str "/home/nevilcp/ML_Aero/results/NACA6525_Re200000_M0p2_polar.xml"],
    Call.mk "JavaFoil.Exit" [] ]

/-- src/unnamed/part_002 (the NACA9230 case) -/
def script_NACA9230_Re300000_M0p2 : Script :=
  [ Call.mk "Options.Country" [Arg.int 1],
    Call.mk "Geometry.CreateAirfoil"
      [Arg.int 0, Arg.int 101, Arg.dec 30, Arg.dec 0, Arg.dec 9, Arg.dec 200,
       Arg.dec 0, Arg.dec 0, Arg.dec 0, Arg.dec 0, Arg.int 1],
    Call.mk "Options.MachNumber" [Arg.dec 20],
    Call.mk "Polar.Analyze"
      [Arg.int 300000, Arg.int 300000, Arg.int 300000, Arg.dec (-1000),
       Arg.dec 1000, Arg.dec 100, Arg.dec 100, Arg.dec 100, Arg.int 0,
       Arg.bool false],
    Call.mk "Polar.Save"
      [Arg.str "/home/nevilcp/ML_Aero/results/NACA9230_Re300000_M0p2_polar.xml"],
    Call.mk "JavaFoil.Exit" [] ]

/-- src/unnamed/part_003 (the NACA5705 case) -/
def script_NACA5705_Re400000_M0p2 : Script :=
  [ Call.mk "Options.Country" [Arg.int 1],
    Call.mk "Geometry.CreateAirfoil"
      [Arg.int 0, Arg.int 101, Arg.dec 5, Arg.dec 0, Arg.dec 5, Arg.dec 700,
       Arg.dec 0, Arg.dec 0, Arg.dec 0, Arg.dec 0, Arg.int 1],
    Call.mk "Options.MachNumber" [Arg.dec 20],
    Call.mk "Polar.Analyze"
      [Arg.int 400000, Arg.int 400000, Arg.int 400000, Arg.dec (-1000),
       Arg.dec 1000, Arg.dec 100, Arg.dec 100, Arg.dec 100, Arg.int 0,
       Arg.bool false],
    Call.mk "Polar.Save"
      [Arg.str "/home/nevilcp/ML_Aero/results/NACA5705_Re400000_M0p2_polar.xml"],
    Call.mk "JavaFoil.Exit" [] ]

/-- src/unnamed/part_004 (the NACA9510 case) -/
def script_NACA9510_Re200000_M0p2 : Script :=
  [ Call.mk "Options.Country" [Arg.int 1],
    Call.mk "Geometry.CreateAirfoil"
      [Arg.int 0, Arg.int 101, Arg.dec 10, Arg.dec 0, Arg.dec 9, Arg.dec 500,
       Arg.dec 0, Arg.dec 0, Arg.dec 0, Arg.dec 0, Arg.int 1],
    Call.mk "Options.MachNumber" [Arg.dec 20],
    Call.mk "Polar.Analyze"
      [Arg.int 200000, Arg.int 200000, Arg.int 200000, Arg.dec (-1000),
       Arg.dec 1000, Arg.dec 100, Arg.dec 100, Arg.dec 100, Arg.int 0,
       Arg.bool false],
    Call.mk "Polar.Save"
      [Arg.str "/home/nevilcp/ML_Aero/results/NACA9510_Re200000_M0p2_polar.xml"],
    Call.mk "JavaFoil.Exit" [] ]

/-- src/unnamed/part_005 (the NACA8105 case) -/
def script_NACA8105_Re400000_M0p1 : Script :=
  [ Call.mk "Options.Country" [Arg.int 1],
    Call.mk "Geometry.CreateAirfoil"
      [Arg.int 0, Arg.int 101, Arg.dec 5, Arg.dec 0, Arg.dec 8, Arg.dec 100,
       Arg.dec 0, Arg.dec 0, Arg.dec 0, Arg.dec 0, Arg.int 1],
    Call.mk "Options.MachNumber" [Arg.dec 10],
    Call.mk "Polar.Analyze"
      [Arg.int 400000, Arg.int 400000, Arg.int 400000, Arg.dec (-1000),
       Arg.dec 1000, Arg.dec 100, Arg.dec 100, Arg.dec 100, Arg.int 0,
       Arg.bool false],
    Call.mk "Polar.Save"
      [Arg.str "/home/nevilcp/ML_Aero/results/NACA8105_Re400000_M0p1_polar.xml"],
    Call.mk "JavaFoil.Exit" [] ]

/-- All macro documents of the repository, one `Script` per document. -/
def corpus : List Script :=
  [ script_NACA0635_Re300000_M0p3,
    script_NACA1120_Re500000_M0p2,
    script_NACA2415_Re500000_M0p1,
    script_NACA2505_Re500000_M0p2,
    script_NACA2730_Re400000_M0p2,
    script_NACA4305_Re500000_M0p3,
    script_NACA8315_Re300000_M0p3,
    script_NACA8335_Re300000_M0p1,
    script_NACA9235_Re200000_M0p3,
    script_NACA8225_Re100000_M0p1,
    script_NACA6525_Re200000_M0p2,
    script_NACA9230_Re300000_M0p2,
    script_NACA5705_Re400000_M0p2,
    script_NACA9510_Re200000_M0p2,
    script_NACA8105_Re400000_M0p1 ]

/-- The argument list of the first call whose method name is `tgt`
(empty when no such call occurs). -/
def argsOf (f : Script) (tgt : String) : List Arg :=
  match f.find? (fun c => decide (c.target = tgt)) with
  | some c => c.args
  | none => []

/-- The fixed method-name sequence of the macro template. -/
def templateTargets : List String :=
  ["Options.Country", "Geometry.CreateAirfoil", "Options.MachNumber",
   "Polar.Analyze", "Polar.Save", "JavaFoil.Exit"]

/-- The script is exactly the six template calls in order and ends in the
argumentless exit call.  (That every argument is a literal is built into
the embedding: `Arg` has only literal forms, because the sources contain
only literal arguments.) -/
def followsTemplate (f : Script) : Bool :=
  decide (f.map Call.target = templateTargets) &&
  decide (f.getLast? = some (Call.mk "JavaFoil.Exit" []))

/-- `some n` iff the decimal value `m / 100`, multiplied by `100`, is the
natural number `n`; that is, `n = m` when `m` is nonnegative. -/
def hundredTimes (m : Int) : Option Nat :=
  if 0 ≤ m then some m.toNat else none

/-- `some n` iff the decimal value `m / 100` is itself the natural
number `n`. -/
def unitValue (m : Int) : Option Nat :=
  if 0 ≤ m ∧ m % 100 = 0 then some (m / 100).toNat else none

/-- `some n` iff the decimal value `m / 100`, multiplied by `10`, is the
natural number `n`. -/
def tenTimes (m : Int) : Option Nat :=
  if 0 ≤ m ∧ m % 10 = 0 then some (m / 10).toNat else none

/-- Two-digit decimal numeral of `n` (zero-padded below ten), as used by
the last two digits of a four-digit NACA code. -/
def twoDigits (n : Nat) : String :=
  if n < 10 then "0" ++ Nat.repr n else Nat.repr n

/-- Mach-number token of the output file names: the Mach value `d / 10`
is written `0p` followed by `d` (every Mach value in the corpus is below
one). -/
def machTok (d : Nat) : String :=
  "0p" ++ Nat.repr d

/-- The output path the repository uses for the case with NACA digits
`c` (camber), `p` (camber position), `t` (thickness), Reynolds number
`re` and Mach token digit `d`. -/
def mkSavePath (c p t re d : Nat) : String :=
  "/home/nevilcp/ML_Aero/results/NACA" ++ Nat.repr c ++ Nat.repr p ++
    twoDigits t ++ "_Re" ++ Nat.repr re ++ "_M" ++ machTok d ++ "_polar.xml"

/-- The path passed to `Polar.Save` encodes the case identity: its NACA
digits decode to the `Geometry.CreateAirfoil` arguments (first digit =
100 times the camber argument, second digit = the camber-position
argument, last two digits = 100 times the thickness argument), its
Reynolds token is the value passed to `Polar.Analyze`, and its Mach
token is the value passed to `Options.MachNumber`. -/
def encodesCase (f : Script) : Bool :=
  match argsOf f "Geometry.CreateAirfoil", argsOf f "Polar.Analyze",
        argsOf f "Options.MachNumber", argsOf f "Polar.Save" with
  | [_, _, Arg.dec thick, _, Arg.dec camber, Arg.dec pos, _, _, _, _, _],
    Arg.int re :: _, [Arg.dec mach], [Arg.str path] =>
      (match hundredTimes camber, unitValue pos, hundredTimes thick,
             tenTimes mach with
       | some c, some p, some t, some d =>
           decide (0 ≤ re) &&
           decide (path = mkSavePath c p t re.toNat d)
       | _, _, _, _ => false)
  | _, _, _, _ => false

/-- The first three `Polar.Analyze` arguments are one identical Reynolds
number lying between 100000 and 500000. -/
def reSweepOk (f : Script) : Bool :=
  match argsOf f "Polar.Analyze" with
  | Arg.int r1 :: Arg.int r2 :: Arg.int r3 :: _ =>
      decide (r1 = r2 ∧ r2 = r3 ∧ 100000 ≤ r1 ∧ r1 ≤ 500000)
  | _ => false

/-- `Polar.Analyze` arguments four, five and six are the sweep
`-10.0`, `10.0`, `1.0` (in hundredths: `-1000`, `1000`, `100`). -/
def aoaSweepOk (f : Script) : Bool :=
  match argsOf f "Polar.Analyze" with
  | _ :: _ :: _ :: Arg.dec lo :: Arg.dec hi :: Arg.dec st :: _ =>
      decide (lo = -1000 ∧ hi = 1000 ∧ st = 100)
  | _ => false

/-- The number of numeric (integer or decimal) arguments of the
`Geometry.CreateAirfoil` call. -/
def geomNumericCount (f : Script) : Nat :=
  (argsOf f "Geometry.CreateAirfoil").countP Arg.isNumeric

/-- Exactly one occurrence of each template call, and the exit call is
last, so no interface call follows `JavaFoil.Exit()`. -/
def singleCase (f : Script) : Bool :=
  decide (f.countP (fun c => decide (c.target = "Geometry.CreateAirfoil")) = 1) &&
  decide (f.countP (fun c => decide (c.target = "Options.MachNumber")) = 1) &&
  decide (f.countP (fun c => decide (c.target = "Polar.Analyze")) = 1) &&
  decide (f.countP (fun c => decide (c.target = "Polar.Save")) = 1) &&
  decide (f.countP (fun c => decide (c.target = "JavaFoil.Exit")) = 1) &&
  (match f.getLast? with
   | some c => decide (c.target = "JavaFoil.Exit")
   | none => false)

/-- The second `Geometry.CreateAirfoil` argument (panel count) is 101. -/
def panelCountOk (f : Script) : Bool :=
  match argsOf f "Geometry.CreateAirfoil" with
  | _ :: Arg.int n :: _ => decide (n = 101)
  | _ => false

/-- The `Options.MachNumber` value lies between 0.1 and 0.3 inclusive
(in hundredths: between 10 and 30). -/
def machRangeOk (f : Script) : Bool :=
  match argsOf f "Options.MachNumber" with
  | [Arg.dec m] => decide (10 ≤ m ∧ m ≤ 30)
  | _ => false

/-- The `Polar.Save` argument is a string starting with `/` and ending
in `.xml`. -/
def savePathForm (f : Script) : Bool :=
  match argsOf f "Polar.Save" with
  | [Arg.str p] =>
      decide (p.data.take 1 = ['/']) &&
      decide (p.data.reverse.take 4 = ['l', 'm', 'x', '.'])
  | _ => false

/-- The parameters the spec leaves unmentioned are fixed constants:
`Options.Country(1)`; `Geometry.CreateAirfoil` has first argument 0,
arguments 4, 7, 8, 9, 10 equal to 0.0 and last argument 1; and
`Polar.Analyze` has arguments 7 and 8 equal to 1.0 (hundredths: 100),
argument 9 equal to 0 and argument 10 equal to false. -/
def fixedConstantsOk (f : Script) : Bool :=
  decide (argsOf f "Options.Country" = [Arg.int 1]) &&
  (match argsOf f "Geometry.CreateAirfoil" with
   | [Arg.int fam, _, _, Arg.dec a4, _, _, Arg.dec a7, Arg.dec a8,
      Arg.dec a9, Arg.dec a10, Arg.int lastA] =>
       decide (fam = 0 ∧ a4 = 0 ∧ a7 = 0 ∧ a8 = 0 ∧ a9 = 0 ∧ a10 = 0 ∧ lastA = 1)
   | _ => false) &&
  (match argsOf f "Polar.Analyze" with
   | [_, _, _, _, _, _, Arg.dec b7, Arg.dec b8, Arg.int b9, Arg.bool b10] =>
       decide (b7 = 100 ∧ b8 = 100 ∧ b9 = 0 ∧ b10 = false)
   | _ => false)

/-- C1: for every macro in the repository, the output path passed to
`Polar.Save` encodes the case identity: its NACA digits decode to the
`Geometry.CreateAirfoil` arguments (first digit = 100 times the camber
argument, second digit = the camber-position argument, last two digits
= 100 times the thickness argument), its Reynolds token equals the
value passed to `Polar.Analyze`, and its Mach token equals the value
passed to `Options.MachNumber`. -/
theorem save_path_encodes_case : ∀ f ∈ corpus, encodesCase f = true := by
  decide

theorem save_path_encodes_case_witness :
    script_NACA8335_Re300000_M0p1 ∈ corpus ∧
      encodesCase script_NACA8335_Re300000_M0p1 = true :=
  ⟨by decide, save_path_encodes_case script_NACA8335_Re300000_M0p1 (by decide)⟩

/-- C2: every macro file follows the fixed template: exactly the call
sequence `Options.Country`, `Geometry.CreateAirfoil`,
`Options.MachNumber`, `Polar.Analyze`, `Polar.Save`, `JavaFoil.Exit`,
in that order, terminated by the exit call (all arguments are literal
by the embedding of `Arg`). -/
theorem template_sequence : ∀ f ∈ corpus, followsTemplate f = true := by
  decide

theorem template_sequence_witness :
    script_NACA0635_Re300000_M0p3 ∈ corpus ∧
      followsTemplate script_NACA0635_Re300000_M0p3 = true :=
  ⟨by decide, template_sequence script_NACA0635_Re300000_M0p3 (by decide)⟩

/-- C3: in every macro the first three `Polar.Analyze` arguments are one
identical Reynolds number, and that value lies between 100000 and
500000 inclusive. -/
theorem reynolds_triple_in_range : ∀ f ∈ corpus, reSweepOk f = true := by
  decide

theorem reynolds_triple_in_range_witness :
    script_NACA9235_Re200000_M0p3 ∈ corpus ∧
      reSweepOk script_NACA9235_Re200000_M0p3 = true :=
  ⟨by decide, reynolds_triple_in_range script_NACA9235_Re200000_M0p3 (by decide)⟩

/-- C4: in every macro the angle-of-attack sweep passed to
`Polar.Analyze` has lower bound -10.0, upper bound 10.0 and step 1.0
(arguments four, five and six). -/
theorem aoa_sweep_fixed : ∀ f ∈ corpus, aoaSweepOk f = true := by
  decide

theorem aoa_sweep_fixed_witness :
    script_NACA2505_Re500000_M0p2 ∈ corpus ∧
      aoaSweepOk script_NACA2505_Re500000_M0p2 = true :=
  ⟨by decide, aoa_sweep_fixed script_NACA2505_Re500000_M0p2 (by decide)⟩

/-- C5, counterexample: the `Geometry.CreateAirfoil` call of the macro
`macro_NACA8335_Re300000_M0p1.js` does not take nine numeric
parameters (it takes eleven). -/
theorem geom_arity_not_nine :
    script_NACA8335_Re300000_M0p1 ∈ corpus ∧
      geomNumericCount script_NACA8335_Re300000_M0p1 ≠ 9 := by
  decide

/-- C5, amended: in every macro file the geometry-definition call
(`Geometry.CreateAirfoil`) of the fixed template takes eleven numeric
parameters (and every one of its parameters is numeric). -/
theorem geom_numeric_arity_eleven :
    ∀ f ∈ corpus, geomNumericCount f = 11 ∧
      (argsOf f "Geometry.CreateAirfoil").all Arg.isNumeric = true := by
  decide

theorem geom_numeric_arity_eleven_witness :
    script_NACA2730_Re400000_M0p2 ∈ corpus ∧
      (geomNumericCount script_NACA2730_Re400000_M0p2 = 11 ∧
        (argsOf script_NACA2730_Re400000_M0p2 "Geometry.CreateAirfoil").all
          Arg.isNumeric = true) :=
  ⟨by decide, geom_numeric_arity_eleven script_NACA2730_Re400000_M0p2 (by decide)⟩

/-- C6: each macro document contains exactly one case, fully
parameterized, executed once, after which the process exits: each
template call occurs exactly once, and no interface call appears after
the `JavaFoil.Exit()` call (the exit call is the last call and occurs
only there). -/
theorem one_case_then_exit : ∀ f ∈ corpus, singleCase f = true := by
  decide

theorem one_case_then_exit_witness :
    script_NACA8225_Re100000_M0p1 ∈ corpus ∧
      singleCase script_NACA8225_Re100000_M0p1 = true :=
  ⟨by decide, one_case_then_exit script_NACA8225_Re100000_M0p1 (by decide)⟩

/-- C7: in every macro the panel count passed to
`Geometry.CreateAirfoil` (second argument) is the constant 101. -/
theorem panel_count_101 : ∀ f ∈ corpus, panelCountOk f = true := by
  decide

theorem panel_count_101_witness :
    script_NACA6525_Re200000_M0p2 ∈ corpus ∧
      panelCountOk script_NACA6525_Re200000_M0p2 = true :=
  ⟨by decide, panel_count_101 script_NACA6525_Re200000_M0p2 (by decide)⟩

/-- C8: in every macro the value passed to `Options.MachNumber` lies
between 0.1 and 0.3 inclusive. -/
theorem mach_in_range : ∀ f ∈ corpus, machRangeOk f = true := by
  decide

theorem mach_in_range_witness :
    script_NACA4305_Re500000_M0p3 ∈ corpus ∧
      machRangeOk script_NACA4305_Re500000_M0p3 = true :=
  ⟨by decide, mach_in_range script_NACA4305_Re500000_M0p3 (by decide)⟩

/-- C9: in every macro the path argument of `Polar.Save` begins with
`/` (absolute path) and ends in `.xml`. -/
theorem save_path_absolute_xml : ∀ f ∈ corpus, savePathForm f = true := by
  decide

theorem save_path_absolute_xml_witness :
    script_NACA9230_Re300000_M0p2 ∈ corpus ∧
      savePathForm script_NACA9230_Re300000_M0p2 = true :=
  ⟨by decide, save_path_absolute_xml script_NACA9230_Re300000_M0p2 (by decide)⟩

/-- C10: the parameters the spec leaves unmentioned are identical
constants across all files: `Options.Country` is always called with 1;
`Geometry.CreateAirfoil` always has first argument 0, arguments four,
seven, eight, nine and ten equal to 0.0 and last argument 1; and
`Polar.Analyze` always has seventh and eighth arguments 1.0, ninth
argument 0 and tenth argument `false`. -/
theorem unmentioned_parameters_constant :
    ∀ f ∈ corpus, fixedConstantsOk f = true := by
  decide

theorem unmentioned_parameters_constant_witness :
    script_NACA5705_Re400000_M0p2 ∈ corpus ∧
      fixedConstantsOk script_NACA5705_Re400000_M0p2 = true :=
  ⟨by decide,
    unmentioned_parameters_constant script_NACA5705_Re400000_M0p2 (by decide)⟩
